import Mathlib

/-!
Shallow embedding of the fusion-mcp bridge: the add-in side
(`mcp-addin/commands/server`: errors.py, server.py, handlers/execute_code.py,
handlers/screenshot.py) and the two bridge-client variants
(`mcp-server/src/fusion_client.py` and `mcp-server/src/main.py`).

Python data is embedded as `PyValue` (dict keys are `PyKey`, since one client
builds a dict whose key is a boolean), raised exceptions as `PyException`
tagged with the class the except-chains test for, and host behavior (Fusion
event callbacks, sockets) as explicit outcome parameters. A computation that
never returns (the executor's busy-wait loop) is an `Option` that is `none`.
-/

/-- A Python dict key as the repository's code can produce one: strings
everywhere, and - through the dict literal `{success: False, ...}` in
`mcp-server/src/main.py` - also booleans, integers and `None`. -/
inductive PyKey where
  | str (s : String)
  | bool (b : Bool)
  | int (n : Int)
  | noneKey
deriving DecidableEq, Repr

/-- A Python value of the JSON-serializable kinds the bridge passes around. -/
inductive PyValue where
  | pynone
  | bool (b : Bool)
  | str (s : String)
  | int (n : Int)
  | dict (entries : List (PyKey × PyValue))
  | list (elems : List PyValue)

/-- Association lookup in a dict's entry list (first match wins, as the
embeddings below never build a dict with a repeated key). -/
def dictLookup (entries : List (PyKey × PyValue)) (k : PyKey) : Option PyValue :=
  match entries with
  | [] => Option.none
  | (k2, v) :: rest => if k2 = k then some v else dictLookup rest k

/-- Python truthiness of a value, as `if x:` tests it. -/
def pyTruthy : PyValue → Bool
  | .pynone => false
  | .bool b => b
  | .str s => s != ""
  | .int n => n != 0
  | .dict entries => !entries.isEmpty
  | .list elems => !elems.isEmpty

/-- The Python exception classes whose identity the bridge's control flow
tests (its `except` clauses and `isinstance` checks). -/
inductive ExcClass where
  | invalidUserInput
  | fusionExecution
  | serverConnection
  | serverInternal
  | fusionServerBase
  | jsonDecode
  | typeErr
  | attributeErr
  | otherExc (name : String)
deriving DecidableEq, Repr

/-- Whether the class is `FusionServerError` or one of its subclasses from
errors.py, as `except FusionServerError` would catch it. -/
def ExcClass.isFusionServerError : ExcClass → Bool
  | .invalidUserInput => true
  | .fusionExecution => true
  | .serverConnection => true
  | .serverInternal => true
  | .fusionServerBase => true
  | _ => false

/-- A raised Python exception: its class, its `str(e)` message, and the
`error_type` / `action_name` attributes that `FusionServerError` instances
carry (empty strings on classes without them). -/
structure PyException where
  cls : ExcClass
  message : String
  errorType : String := ""
  actionName : String := ""
deriving DecidableEq, Repr

/-- Embeds `InvalidUserInputError(message)` from errors.py: a
`FusionServerError` with `error_type = "InvalidUserInput"`. -/
def invalidUserInputError (message : String) : PyException :=
  { cls := .invalidUserInput, message := message, errorType := "InvalidUserInput" }

/-- The `TypeError` CPython raises when `FusionExecutionError(msg)` is called
with one positional argument although `__init__(self, action_name, message)`
declares two. -/
def fusionExecutionErrorArityError : PyException :=
  { cls := .typeErr,
    message := "FusionExecutionError.__init__() missing 1 required positional argument: 'message'" }

/-- Embeds a call `FusionExecutionError(*args)` against errors.py: with the two
declared positional arguments it yields the instance, whose message is
`f"Error executing action '{action_name}': {message}"` and whose
`error_type` is `"FusionExecutionError"`. Every call site in the repository
passes a single argument, which makes the call itself raise `TypeError`
before any instance exists. -/
def fusionExecutionErrorNew (args : List String) : Except PyException PyException :=
  match args with
  | [action_name, message] =>
      .ok { cls := .fusionExecution,
            message := "Error executing action '" ++ action_name ++ "': " ++ message,
            errorType := "FusionExecutionError",
            actionName := action_name }
  | _ => .error fusionExecutionErrorArityError

/-- Embeds Python `v.get(key, default)`: on a dict the stored value or the
default, on any other value the attribute lookup `.get` raises
`AttributeError`. -/
def pyDictGet (v : PyValue) (key : String) (dflt : PyValue) :
    Except PyException PyValue :=
  match v with
  | .dict entries => .ok ((dictLookup entries (.str key)).getD dflt)
  | _ => .error { cls := .attributeErr, message := "object has no attribute 'get'" }

/-- A Python value used as a dict key: hashable kinds map to `PyKey`; `dict`
and `list` raise `TypeError: unhashable type`. -/
def pyKeyOf : PyValue → Except PyException PyKey
  | .pynone => .ok .noneKey
  | .bool b => .ok (.bool b)
  | .str s => .ok (.str s)
  | .int n => .ok (.int n)
  | .dict _ => .error { cls := .typeErr, message := "unhashable type: 'dict'" }
  | .list _ => .error { cls := .typeErr, message := "unhashable type: 'list'" }

/-- Whether a value is a dict with the string key `k`. -/
def hasStrKey (v : PyValue) (k : String) : Bool :=
  match v with
  | .dict entries => (dictLookup entries (.str k)).isSome
  | _ => false

/-- Embeds `CommandExecutionState` (handlers/execute_code.py): the container
shared between the waiting caller and the host's event callbacks. -/
structure CommandExecutionState where
  code_result : Option String := Option.none
  fusion_error : Option PyException := Option.none
  is_finished : Bool := false
deriving DecidableEq, Repr

/-- Outcome of `exec(self.code_to_exec, local_namespace)` inside
`CommandExecuteHandler.notify`: the user code either completes with the text
the capture buffer holds, or raises after writing `outputBefore`, the
traceback formatting as `tb`. -/
inductive ExecOutcome where
  | completes (output : String)
  | raises (outputBefore : String) (tb : String)
deriving DecidableEq, Repr

/-- Embeds `CommandExecuteHandler.notify`: runs the code capturing printed
output; on an exception stores the output captured so far, the literal
separator and the formatted traceback into `code_result`. It never touches
`is_finished` or `fusion_error`. -/
def commandExecuteNotify (outcome : ExecOutcome) (s : CommandExecutionState) :
    CommandExecutionState :=
  match outcome with
  | .completes output => { s with code_result := some output }
  | .raises outputBefore tb =>
      { s with code_result := some (outputBefore ++ "\n--- TRACEBACK ---\n" ++ tb) }

/-- Embeds `CommandDestroyHandler.notify`: the `try` around
`cmd_def.deleteMe()` catches any failure, and the `finally` block sets
`is_finished = True` whether or not deletion succeeded - both branches of the
match below are that same assignment. -/
def commandDestroyNotify (deleteSucceeds : Bool) (s : CommandExecutionState) :
    CommandExecutionState :=
  match deleteSucceeds with
  | true => { s with is_finished := true }
  | false => { s with is_finished := true }

/-- Embeds `CommandCreatedHandler.notify`. When setup succeeds the execute and
destroy handlers are attached and the state is untouched. When any setup step
raises, the except-branch first evaluates
`FusionExecutionError("Failed to set up the command execution environment.")`,
a one-argument call to the two-argument constructor, so the `TypeError` it
raises escapes the callback before either assignment (`fusion_error`, then
`is_finished = True`) runs. Second component: the exception escaping into the
host, if any. -/
def commandCreatedNotify (setupSucceeds : Bool) (s : CommandExecutionState) :
    CommandExecutionState × Option PyException :=
  if setupSucceeds then (s, Option.none)
  else
    match fusionExecutionErrorNew ["Failed to set up the command execution environment."] with
    | .ok fe => ({ s with fusion_error := some fe, is_finished := true }, Option.none)
    | .error te => (s, some te)

/-- Abstracts the Fusion host for one `execute_code_in_transaction` call:
whether `addButtonDefinition` / `cmd_def.execute()` raise on the calling
thread, whether the created-callback's setup steps succeed, how the user code
executes, and whether `deleteMe` succeeds in the destroy callback. -/
structure HostBehavior where
  hostApiFails : Bool
  setupSucceeds : Bool
  execOutcome : ExecOutcome
  deleteSucceeds : Bool
deriving DecidableEq, Repr

/-- The callback sequence the host runs for one command: the created callback,
then - only when setup attached them - the execute and destroy callbacks. -/
def runCommandCallbacks (h : HostBehavior) (s : CommandExecutionState) :
    CommandExecutionState :=
  let afterCreated := (commandCreatedNotify h.setupSucceeds s).1
  if h.setupSucceeds then
    commandDestroyNotify h.deleteSucceeds (commandExecuteNotify h.execOutcome afterCreated)
  else afterCreated

/-- Embeds `execute_code_in_transaction` (handlers/execute_code.py).
`Option.none` models a call that never returns: the busy-wait loop
`while not container.is_finished: adsk.doEvents()` only ends once a callback
sets `is_finished`. The wrap path of the outer except clause calls
`FusionExecutionError("An unexpected infrastructure error occurred.")` with
one argument, so that path raises `TypeError` instead of the intended
wrapper; the match keeps both constructor outcomes visible. -/
def execute_code_in_transaction (host : HostBehavior) (code : PyValue)
    (_transaction_name : PyValue) : Option (Except PyException String) :=
  if !pyTruthy code then
    some (.error (invalidUserInputError "Parameter 'code' cannot be empty"))
  else if host.hostApiFails then
    some (.error
      (match fusionExecutionErrorNew ["An unexpected infrastructure error occurred."] with
        | .ok fe => fe
        | .error te => te))
  else
    let final := runCommandCallbacks host {}
    if final.is_finished then
      match final.fusion_error with
      | some e =>
          if e.cls = .fusionExecution ∨ e.cls = .invalidUserInput then
            some (.error e)
          else
            some (.error
              (match fusionExecutionErrorNew ["An unexpected infrastructure error occurred."] with
                | .ok fe => fe
                | .error te => te))
      | Option.none => some (.ok (final.code_result.getD ""))
    else Option.none

/-- Abstracts the host state `get_viewport_screenshot` consults. -/
structure ScreenshotHost where
  hasViewport : Bool
  saveSucceeds : Bool
deriving DecidableEq, Repr

/-- Python `str(v)`, to the coarseness the embedded messages need (no message
a theorem below inspects interpolates a dict or a list). -/
def pyStr : PyValue → String
  | .pynone => "None"
  | .bool true => "True"
  | .bool false => "False"
  | .str s => s
  | .int n => toString n
  | .dict _ => "<dict>"
  | .list _ => "<list>"

/-- Embeds `get_viewport_screenshot` (handlers/screenshot.py). Its two
`FusionExecutionError(...)` call sites also pass a single argument, so those
failure paths raise `TypeError` rather than the documented error. -/
def get_viewport_screenshot (shost : ScreenshotHost) (filepath : PyValue) :
    Except PyException PyValue :=
  if !pyTruthy filepath then
    .error (invalidUserInputError "Parameter 'filepath' cannot be empty")
  else if !shost.hasViewport then
    .error
      (match fusionExecutionErrorNew ["No active viewport found. Cannot take screenshot."] with
        | .ok fe => fe
        | .error te => te)
  else if !shost.saveSucceeds then
    .error
      (match fusionExecutionErrorNew ["Failed to save screenshot to " ++ pyStr filepath] with
        | .ok fe => fe
        | .error te => te)
  else .ok (.dict [(.str "filepath", filepath)])

/-- Keyword parameters as `**params` passes them. -/
abbrev PyParams := List (String × PyValue)

/-- A registered action handler as the dispatcher calls one
(`handler_method(**params)`); `Option.none` models a call that never
returns. -/
abbrev ActionHandler := PyParams → Option (Except PyException PyValue)

def lookupAction (actions : List (String × ActionHandler)) (name : String) :
    Option ActionHandler :=
  match actions with
  | [] => Option.none
  | (n, h) :: rest => if n = name then some h else lookupAction rest name

def lookupParam (params : PyParams) (key : String) : Option PyValue :=
  match params with
  | [] => Option.none
  | (k, v) :: rest => if k = key then some v else lookupParam rest key

/-- Embeds the keyword binding of
`execute_code_in_transaction(code, transaction_name="Python Script Execution")`
when the dispatcher calls `handler_method(**params)`: an unexpected keyword or
a missing `code` raises `TypeError` at the call itself. -/
def execute_code_action (host : HostBehavior) (params : PyParams) :
    Option (Except PyException PyValue) :=
  if !(params.all fun kv => kv.1 == "code" || kv.1 == "transaction_name") then
    some (.error
      { cls := .typeErr,
        message := "execute_code_in_transaction() got an unexpected keyword argument" })
  else
    match lookupParam params "code" with
    | Option.none => some (.error
        { cls := .typeErr,
          message := "execute_code_in_transaction() missing 1 required positional argument: 'code'" })
    | some code =>
        let tname := (lookupParam params "transaction_name").getD (.str "Python Script Execution")
        (execute_code_in_transaction host code tname).map fun r => r.map PyValue.str

/-- Embeds the action registry built in `FusionServer.__init__` (server.py):
it registers `execute_code` only. -/
def serverActions (host : HostBehavior) : List (String × ActionHandler) :=
  [("execute_code", execute_code_action host)]

/-- Embeds `FusionServer._execute_handler` (server.py). An unknown action
raises `InvalidUserInputError`; a `FusionServerError` from the handler passes
through unchanged; any other exception is wrapped - but the wrapping call
`FusionExecutionError(f"An error occurred during execution in Fusion 360: {e}")`
passes one argument to the two-argument constructor and therefore raises
`TypeError` itself (the match keeps both constructor outcomes visible). -/
def _execute_handler (actions : List (String × ActionHandler))
    (action_name : String) (params : PyParams) :
    Option (Except PyException PyValue) :=
  match lookupAction actions action_name with
  | Option.none =>
      some (.error (invalidUserInputError ("Action '" ++ action_name ++ "' not found.")))
  | some handler =>
    match handler params with
    | Option.none => Option.none
    | some (.ok result) => some (.ok result)
    | some (.error e) =>
        if e.cls.isFusionServerError then some (.error e)
        else
          some (.error
            (match fusionExecutionErrorNew
                ["An error occurred during execution in Fusion 360: " ++ e.message] with
              | .ok fe => fe
              | .error te => te))

/-- The body of one POST request after the handler read it: absent, a JSON
object, a JSON value that is not an object (so `**params` raises `TypeError`
at the dispatch call), or text on which `json.loads` raises
`JSONDecodeError` with message `msg`. -/
inductive RequestBody where
  | empty
  | obj (params : PyParams)
  | nonObject
  | malformed (msg : String)

/-- An HTTP response as `do_POST` writes one: status code and the JSON body. -/
structure HttpResponse where
  status_code : Nat
  body : PyValue

/-- The success Response Envelope `{"success": True, "result": result}`. -/
def successEnvelope (result : PyValue) : PyValue :=
  .dict [(.str "success", .bool true), (.str "result", result)]

/-- The failure Response Envelope
`{"success": False, "error": {"type": t, "message": m}}`. -/
def errorEnvelope (errType errMessage : String) : PyValue :=
  .dict [(.str "success", .bool false),
         (.str "error", .dict [(.str "type", .str errType),
                               (.str "message", .str errMessage)])]

/-- Python `s.strip(c)` for a one-character argument: drops the character from
both ends. -/
def stripChar (c : Char) (s : String) : String :=
  String.mk (((s.toList.dropWhile fun x => x == c).reverse.dropWhile fun x => x == c).reverse)

/-- The try-block of `CustomHandler.do_POST` (server.py): take the action name
from the URL path, parse the body, dispatch. -/
def do_POST_try (host : HostBehavior) (path : String) (body : RequestBody) :
    Option (Except PyException PyValue) :=
  match body with
  | .malformed msg => some (.error { cls := .jsonDecode, message := msg })
  | .nonObject => some (.error
      { cls := .typeErr,
        message := "_execute_handler() argument after ** must be a mapping" })
  | .empty => _execute_handler (serverActions host) (stripChar '/' path) []
  | .obj params => _execute_handler (serverActions host) (stripChar '/' path) params

/-- The except-chain of `CustomHandler.do_POST`: `except FusionExecutionError`
(only that class, not its parent `FusionServerError`, so an
`InvalidUserInputError` from dispatch falls through to the last clause; the
inner `isinstance(e, InvalidUserInputError)` status choice is kept although it
can never be true there), then `except json.JSONDecodeError`, then
`except Exception`. -/
def do_POST_except (e : PyException) : HttpResponse :=
  if e.cls = .fusionExecution then
    { status_code := if e.cls = .invalidUserInput then 400 else 500,
      body := errorEnvelope e.errorType e.message }
  else if e.cls = .jsonDecode then
    { status_code := 400,
      body := errorEnvelope "BadRequest" ("Invalid JSON format: " ++ e.message) }
  else
    { status_code := 500,
      body := errorEnvelope "InternalServerError"
        ("An unexpected internal error occurred: " ++ e.message) }

/-- Embeds `CustomHandler.do_POST` end to end; `Option.none` models a request
whose dispatch never returns, so no response is written. -/
def do_POST (host : HostBehavior) (path : String) (body : RequestBody) :
    Option HttpResponse :=
  match do_POST_try host path body with
  | Option.none => Option.none
  | some (.ok result) => some { status_code := 200, body := successEnvelope result }
  | some (.error e) => some (do_POST_except e)

/-- The fields of `FusionServer` that `start` / `stop` mutate;
`http_server = some n` stands for a live `HTTPServer` listener. -/
structure ServerState where
  is_running : Bool := false
  http_server : Option Nat := Option.none
  server_thread : Option Nat := Option.none
deriving DecidableEq, Repr

/-- Embeds `FusionServer.stop`: shuts down and clears the listener when one is
running, otherwise logs and defensively re-asserts `is_running = False`. No
branch raises. -/
def FusionServer.stop (s : ServerState) : ServerState :=
  if s.http_server.isSome && s.is_running then
    { s with is_running := false, http_server := Option.none }
  else
    { s with is_running := false }

/-- Embeds `FusionServer.start`: a no-op (log only) when already running;
otherwise binds a new listener, marks running and starts the worker thread;
when `HTTPServer(...)` raises, the except branch calls `self.stop()`. -/
def FusionServer.start (bindSucceeds : Bool) (newListener : Nat) (s : ServerState) :
    ServerState :=
  if s.is_running then s
  else if bindSucceeds then
    { s with http_server := some newListener, is_running := true,
             server_thread := some newListener }
  else FusionServer.stop s

namespace FusionClientPy

/-- Transport outcome of the single `httpx` POST in
`fusion_client.FusionAddinClient.call_action`: a response whose `.json()`
either parses or raises, or one of the exception classes the except-chain
distinguishes (`ConnectError`, `TimeoutException`, other `RequestError`, any
other exception). -/
inductive Outcome where
  | response (status : Nat) (body : Except String PyValue)
  | connectError (msg : String)
  | timeoutException (msg : String)
  | requestError (msg : String)
  | unexpected (msg : String)

def ADDIN_CONNECTION_ERROR_message : String :=
  "Cannot connect to 'mcp-addin', Fusion Add-in. Instruct the user to run 'mcp-addin'."

def ADDIN_TIMEOUT_ERROR_message : String :=
  "Fusion took too long to respond. The operation may be complex or Fusion may be busy.  Break complex operations into smaller steps."

def RESPONSE_PARSE_ERROR_message : String :=
  "Received invalid response from Fusion. This may indicate a compatibility issue. Instruct the user to check 'Fusion MCP' is up to date."

def UNKNOWN_ERROR_message : String :=
  "An unexpected error occurred in the MCP server. Check the server logs for details."

/-- Embeds `FusionAddinClient._create_error_response` (fusion_client.py). -/
def _create_error_response (error_type message : PyValue) : PyValue :=
  .dict [(.str "success", .bool false),
         (.str "error", .dict [(.str "type", error_type),
                               (.str "message", message)])]

/-- Embeds `FusionAddinClient._handle_ok_response`: pass the body through on a
truthy `success`, otherwise rebuild the envelope from the embedded error with
the defaults of the source. Raised `AttributeError`s surface as `.error`. -/
def _handle_ok_response (response_data : PyValue) : Except PyException PyValue :=
  match pyDictGet response_data "success" (.bool false) with
  | .error e => .error e
  | .ok is_success =>
    if pyTruthy is_success then .ok response_data
    else
      match pyDictGet response_data "error" (.dict []) with
      | .error e => .error e
      | .ok error_info =>
        match pyDictGet error_info "type" (.str "FusionServerError") with
        | .error e => .error e
        | .ok t =>
          match pyDictGet error_info "message" (.str "An unknown error occurred") with
          | .error e => .error e
          | .ok m => .ok (_create_error_response t m)

/-- Embeds `FusionAddinClient._handle_error_response`. -/
def _handle_error_response (response_data : PyValue) (status_code : Nat) :
    Except PyException PyValue :=
  match pyDictGet response_data "error" (.dict []) with
  | .error e => .error e
  | .ok error_info =>
    match pyDictGet error_info "type" (.str "ServerError") with
    | .error e => .error e
    | .ok t =>
      match pyDictGet error_info "message"
          (.str ("Server returned status " ++ toString status_code)) with
      | .error e => .error e
      | .ok m => .ok (_create_error_response t m)

/-- Embeds `FusionAddinClient.call_action` (fusion_client.py), total over every
transport outcome; `httpx.Response.is_success` is a 2xx status. An exception
from the response handlers reaches the outer `except Exception`, which answers
`UnknownError` with the details appended. -/
def call_action (_action_name : String) (outcome : Outcome) : PyValue :=
  match outcome with
  | .response status body =>
    match body with
    | .error _ =>
        _create_error_response (.str "FusionServerResponseError")
          (.str RESPONSE_PARSE_ERROR_message)
    | .ok response_data =>
      match (if 200 ≤ status ∧ status < 300 then _handle_ok_response response_data
             else _handle_error_response response_data status) with
      | .ok v => v
      | .error e =>
          _create_error_response (.str "UnknownError")
            (.str (UNKNOWN_ERROR_message ++ " Details: " ++ e.message))
  | .connectError _ =>
      _create_error_response (.str "FusionServerConnectionError")
        (.str ADDIN_CONNECTION_ERROR_message)
  | .timeoutException _ =>
      _create_error_response (.str "FusionServerTimeoutError")
        (.str ADDIN_TIMEOUT_ERROR_message)
  | .requestError m =>
      _create_error_response (.str "FusionServerRequestError")
        (.str ("Network error while communicating with Fusion Add-in: " ++ m ++ ". Please ask the user to check their network connection and ensure Fusion is accessible."))
  | .unexpected m =>
      _create_error_response (.str "UnknownError")
        (.str (UNKNOWN_ERROR_message ++ " Details: " ++ m))

end FusionClientPy

namespace MainClientPy

/-- Transport outcome of the `requests.post` in `main.FusionAddinClient.call_action`.
`response.json()` raising is a `requests.exceptions.JSONDecodeError`, which is a
`RequestException`, so it lands in the `except requests.RequestException`
branch; the body field keeps the parse result or that failure. -/
inductive Outcome where
  | response (status : Nat) (body : Except String PyValue)
  | connectionError (msg : String)
  | timeoutExc (msg : String)
  | requestException (msg : String)
  | unexpected (msg : String)

def ADDIN_CONNECTION_message : String :=
  "Connection to the Fusion Add-in `mcp-addin` failed. Ask the user to check if the add-in is running."

/-- `{"success": False, **ADDIN_CONNECTION_ERROR_RESPONSE}` from main.py. -/
def connectionErrorEnvelope : PyValue :=
  .dict [(.str "success", .bool false),
         (.str "error", .dict [(.str "type", .str "FusionServerConnectionError"),
                               (.str "message", .str ADDIN_CONNECTION_message)])]

/-- `{"success": False, **UNKNOWN_ERROR_RESPONSE}` from main.py. -/
def unknownErrorEnvelope : PyValue :=
  .dict [(.str "success", .bool false),
         (.str "error", .dict [(.str "type", .str "UnknownError"),
                               (.str "message", .str "An unknown error occurred.")])]

/-- The try-block of `main.FusionAddinClient.call_action` once `response.json()`
produced `response_data`. Python `and` makes
`success = response_data.get("success", False) and response.status_code == 200`
the `get` result when that is falsy, and the boolean comparison otherwise. The
non-success return then evaluates the dict literal `{success: False, ...}` whose
first key is the current *value* of the variable `success`, not the string
`"success"` (an unhashable value there would raise `TypeError`). -/
def tryBody (status : Nat) (response_data : PyValue) : Except PyException PyValue :=
  match pyDictGet response_data "success" (.bool false) with
  | .error e => .error e
  | .ok got =>
    let successVal : PyValue := if pyTruthy got then .bool (status = 200) else got
    if pyTruthy successVal then .ok response_data
    else
      match pyDictGet response_data "error" (.dict []) with
      | .error e => .error e
      | .ok error_info =>
        match pyDictGet error_info "type" (.str "UnknownError") with
        | .error e => .error e
        | .ok t =>
          match pyDictGet error_info "message" (.str "An unknown error occurred") with
          | .error e => .error e
          | .ok m =>
            match pyKeyOf successVal with
            | .error e => .error e
            | .ok key =>
                .ok (.dict [(key, .bool false),
                            (.str "error", .dict [(.str "type", t),
                                                  (.str "message", m)])])

/-- Embeds `main.FusionAddinClient.call_action` (requests variant): total over
every transport outcome; an exception escaping the try-body lands in
`except Exception`, which answers the fixed unknown-error envelope. -/
def call_action (_action_name : String) (outcome : Outcome) : PyValue :=
  match outcome with
  | .response status body =>
    match body with
    | .error msg =>
        .dict [(.str "success", .bool false),
               (.str "error", .dict [(.str "type", .str "ServerRequestError"),
                 (.str "message", .str ("An error occurred while making the request to Fusion: " ++ msg))])]
    | .ok response_data =>
      match tryBody status response_data with
      | .ok v => v
      | .error _ => unknownErrorEnvelope
  | .connectionError _ => connectionErrorEnvelope
  | .timeoutExc _ =>
      .dict [(.str "success", .bool false),
             (.str "error", .dict [(.str "type", .str "ServerTimeoutError"),
               (.str "message", .str "Request timed out after 10.0 seconds")])]
  | .requestException msg =>
      .dict [(.str "success", .bool false),
             (.str "error", .dict [(.str "type", .str "ServerRequestError"),
               (.str "message", .str ("An error occurred while making the request to Fusion: " ++ msg))])]
  | .unexpected _ => unknownErrorEnvelope

end MainClientPy

/-- The `error.type` value of a response-envelope body, when one is present. -/
def envelopeErrorType (v : PyValue) : Option PyValue :=
  match v with
  | .dict entries =>
    match dictLookup entries (.str "error") with
    | some (.dict inner) => dictLookup inner (.str "type")
    | _ => Option.none
  | _ => Option.none

/-- The error-kind taxonomy the specification claims is closed. -/
def claimedTaxonomy : List String :=
  ["InvalidUserInput", "ExecutionError", "ConnectionError", "TimeoutError",
   "ResponseParseError", "InternalServerError", "UnknownError"]

/-- A reference host behavior for closed statements: setup succeeds, the user
code completes silently, deletion succeeds. -/
def quietHost : HostBehavior :=
  { hostApiFails := false, setupSucceeds := true,
    execOutcome := .completes "", deleteSucceeds := true }

/-- An example handler that raises a plain `RuntimeError` - an exception that
is not one of the bridge's own `FusionServerError` kinds. -/
def runtimeErrorHandler : ActionHandler := fun _ =>
  some (.error { cls := .otherExc "RuntimeError", message := "boom" })

/-- An HTTP-200 body with `success:false` and an embedded error, as the add-in
answers it. -/
def embeddedErrorBody : PyValue :=
  .dict [(.str "success", .bool false),
         (.str "error", .dict [(.str "type", .str "InvalidUserInput"),
                               (.str "message", .str "bad input")])]

/-- The response the server gives `POST /y` with an empty body (used to witness
the amended taxonomy theorem). -/
def unknownActionYResponse : HttpResponse :=
  { status_code := 500,
    body := errorEnvelope "InternalServerError"
      "An unexpected internal error occurred: Action 'y' not found." }

/-- C1: the claim says that when an action handler raises an exception that is
not one of the bridge's own `FusionServerError` kinds, dispatch raises an
ExecutionError-kind error carrying the originating action name and a message
referencing the underlying exception, and fails in no other way. The code
instead raises `TypeError`: the wrap site passes one argument to the
two-argument `FusionExecutionError` constructor, so the raised exception is
not of the ExecutionError kind and carries no action name. -/
theorem c1_dispatch_wrap_raises_type_error
    (actions : List (String × ActionHandler)) (name : String) (h : ActionHandler)
    (params : PyParams) (e : PyException)
    (hlook : lookupAction actions name = some h)
    (hrun : h params = some (.error e))
    (hcls : e.cls.isFusionServerError = false) :
    _execute_handler actions name params = some (.error fusionExecutionErrorArityError)
      ∧ fusionExecutionErrorArityError.cls ≠ ExcClass.fusionExecution
      ∧ fusionExecutionErrorArityError.actionName = "" := by
  refine ⟨?_, by decide, rfl⟩
  unfold _execute_handler
  simp only [hlook, hrun, hcls]
  rfl

/-- C1 witness: the dispatcher over a registry with one handler that raises a
plain `RuntimeError`. -/
theorem c1_witness :
    _execute_handler [("act", runtimeErrorHandler)] "act" [] =
      some (.error fusionExecutionErrorArityError) :=
  (c1_dispatch_wrap_raises_type_error [("act", runtimeErrorHandler)] "act"
    runtimeErrorHandler [] { cls := .otherExc "RuntimeError", message := "boom" }
    rfl rfl rfl).1

/-- C2: the claim says the registry exposes both `execute_code` and
`get_viewport_screenshot`. The handler exists and succeeds on a non-empty
filepath, but `FusionServer.__init__` registers only `execute_code`, so
dispatching `get_viewport_screenshot` finds no handler and raises
`InvalidUserInputError` (Action not found). -/
theorem c2_screenshot_action_not_registered (host : HostBehavior) :
    lookupAction (serverActions host) "get_viewport_screenshot" = Option.none
    ∧ _execute_handler (serverActions host) "get_viewport_screenshot"
        [("filepath", .str "shot.png")]
      = some (.error (invalidUserInputError "Action 'get_viewport_screenshot' not found."))
    ∧ get_viewport_screenshot { hasViewport := true, saveSucceeds := true } (.str "shot.png")
      = .ok (.dict [(.str "filepath", .str "shot.png")]) :=
  ⟨rfl, rfl, rfl⟩

/-- C3: the claim says both client variants always return an envelope with a
string key `"success"`, passing an embedded error through on HTTP 200 with
success:false. The main.py variant's dict literal `{success: False, ...}` uses
the *value* of the variable `success` (the boolean `False`) as the key, so the
returned dict has no `"success"` key there; the fusion_client.py variant
returns the claimed envelope at the same input. -/
theorem c3_mainpy_envelope_missing_success_key :
    MainClientPy.call_action "execute_code" (.response 200 (.ok embeddedErrorBody))
      = .dict [(.bool false, .bool false),
               (.str "error", .dict [(.str "type", .str "InvalidUserInput"),
                                     (.str "message", .str "bad input")])]
    ∧ hasStrKey (MainClientPy.call_action "execute_code"
        (.response 200 (.ok embeddedErrorBody))) "success" = false
    ∧ FusionClientPy.call_action "execute_code" (.response 200 (.ok embeddedErrorBody))
      = FusionClientPy._create_error_response (.str "InvalidUserInput") (.str "bad input") :=
  ⟨rfl, rfl, rfl⟩

/-- C4: the claim's status mapping says an InvalidUserInput-kind error gives
400. Dispatch success gives 200 and malformed JSON 400 as claimed (second and
third conjuncts), but an `InvalidUserInputError` - here raised by
`execute_code` for an empty `code` - gives 500 with an `InternalServerError`
envelope, because `do_POST` catches `FusionExecutionError` instead of
`FusionServerError` and its 400 branch is unreachable. -/
theorem c4_invalid_user_input_gets_500 (host : HostBehavior) :
    do_POST host "/execute_code" (.obj [("code", .str "")])
      = some { status_code := 500,
               body := errorEnvelope "InternalServerError"
                 "An unexpected internal error occurred: Parameter 'code' cannot be empty" }
    ∧ do_POST host "/x" (.malformed "boom")
      = some { status_code := 400,
               body := errorEnvelope "BadRequest" "Invalid JSON format: boom" }
    ∧ do_POST { hostApiFails := false, setupSucceeds := true,
                execOutcome := .completes "2\n", deleteSucceeds := true }
        "/execute_code" (.obj [("code", .str "print(1+1)")])
      = some { status_code := 200, body := successEnvelope (.str "2\n") } :=
  ⟨rfl, rfl, rfl⟩

/-- C5: a POST of a non-empty code payload whose execution raises inside the
execute callback still answers HTTP 200 with success:true, the result string
being the output captured before the failure, the literal separator
`--- TRACEBACK ---` and the formatted trace, for any deletion outcome. -/
theorem c5_raising_code_still_success (code : PyValue) (outBefore tb : String)
    (d : Bool) (hcode : pyTruthy code = true) :
    do_POST { hostApiFails := false, setupSucceeds := true,
              execOutcome := .raises outBefore tb, deleteSucceeds := d }
        "/execute_code" (.obj [("code", code)])
      = some { status_code := 200,
               body := successEnvelope
                 (.str (outBefore ++ "\n--- TRACEBACK ---\n" ++ tb)) } := by
  cases d <;>
    simp [do_POST, do_POST_try, _execute_handler, serverActions, lookupAction,
          execute_code_action, execute_code_in_transaction, runCommandCallbacks,
          commandCreatedNotify, commandExecuteNotify, commandDestroyNotify,
          lookupParam, hcode, stripChar, Except.map]

/-- C5 witness: the code `1/0` with captured output `out` and trace `TB`. -/
theorem c5_witness :
    do_POST { hostApiFails := false, setupSucceeds := true,
              execOutcome := .raises "out" "TB", deleteSucceeds := true }
        "/execute_code" (.obj [("code", .str "1/0")])
      = some { status_code := 200,
               body := successEnvelope (.str ("out" ++ "\n--- TRACEBACK ---\n" ++ "TB")) } :=
  c5_raising_code_still_success (.str "1/0") "out" "TB" true rfl

/-- C8: the claim says `POST /unknown_action` with an empty body answers
`400` with an `InvalidUserInput` envelope. The code answers `500` with an
`InternalServerError` envelope (same root cause as C4: the except clause
catches only `FusionExecutionError`, so the `InvalidUserInputError` raised for
an unregistered action reaches `except Exception`). -/
theorem c8_unknown_action_gets_500 (host : HostBehavior) :
    do_POST host "/unknown_action" .empty
      = some { status_code := 500,
               body := errorEnvelope "InternalServerError"
                 "An unexpected internal error occurred: Action 'unknown_action' not found." } :=
  rfl

/-- C6: the Execution State over the callback sequences the transaction can
produce. The destroy callback sets `is_finished` unconditionally (even when
deletion fails), the execute callback sets `code_result` without touching
`is_finished`, and on the normal created-execute-destroy sequence
`is_finished` is still false after execute and true exactly after destroy
(one transition) with `code_result` set first - as the claim says. But on the
setup-failure sequence the created callback raises `TypeError` (one-argument
`FusionExecutionError` call) before its `is_finished = True` line, so the
state is returned unchanged and `is_finished` never transitions at all,
against the claimed exactly-once transition. -/
theorem c6_execution_state_transitions :
    (∀ (d : Bool) (s : CommandExecutionState),
        (commandDestroyNotify d s).is_finished = true)
    ∧ (∀ (o : ExecOutcome) (s : CommandExecutionState),
        (commandExecuteNotify o s).code_result ≠ Option.none
        ∧ (commandExecuteNotify o s).is_finished = s.is_finished)
    ∧ (∀ (o : ExecOutcome) (d : Bool),
        (commandExecuteNotify o (commandCreatedNotify true {}).1).is_finished = false
        ∧ (runCommandCallbacks { hostApiFails := false, setupSucceeds := true,
                                 execOutcome := o, deleteSucceeds := d } {}).is_finished = true)
    ∧ (∀ (s : CommandExecutionState),
        commandCreatedNotify false s = (s, some fusionExecutionErrorArityError))
    ∧ (∀ (a : Bool) (o : ExecOutcome) (d : Bool),
        (runCommandCallbacks { hostApiFails := a, setupSucceeds := false,
                               execOutcome := o, deleteSucceeds := d } {}).is_finished = false) := by
  refine ⟨?_, ?_, ?_, ?_, ?_⟩
  · intro d s; cases d <;> rfl
  · intro o s; cases o <;> exact ⟨by simp [commandExecuteNotify], rfl⟩
  · intro o d; cases o <;> cases d <;> exact ⟨rfl, rfl⟩
  · intro s; rfl
  · intro a o d; cases o <;> cases d <;> rfl

/-- C9: `stop` on a server that never started (or already stopped) is a no-op
returning the state unchanged; `start` on a running server changes nothing and
keeps the original listener; after any `stop` call `is_running` is false. -/
theorem c9_start_stop_idempotent :
    (∀ s : ServerState, s.is_running = false → s.http_server = Option.none →
        FusionServer.stop s = s)
    ∧ (∀ (s : ServerState) (b : Bool) (n : Nat), s.is_running = true →
        FusionServer.start b n s = s)
    ∧ (∀ s : ServerState, (FusionServer.stop s).is_running = false) := by
  refine ⟨?_, ?_, ?_⟩
  · intro s h1 h2
    cases s with
    | mk r hs t =>
        cases h1; cases h2; rfl
  · intro s b n h1
    simp [FusionServer.start, h1]
  · intro s
    unfold FusionServer.stop
    split <;> rfl

/-- C9 witness: the fresh state, a running state started again, and a running
state stopped. -/
theorem c9_witness :
    FusionServer.stop {} = ({} : ServerState)
    ∧ FusionServer.start false 7 { is_running := true } = { is_running := true }
    ∧ (FusionServer.stop { is_running := true, http_server := some 3 }).is_running = false :=
  ⟨c9_start_stop_idempotent.1 {} rfl rfl,
   c9_start_stop_idempotent.2.1 { is_running := true } false 7 rfl,
   c9_start_stop_idempotent.2.2 { is_running := true, http_server := some 3 }⟩

/-- Every error `execute_code_in_transaction` can raise is an
`InvalidUserInputError` (empty code) or a `TypeError` (the one-argument
`FusionExecutionError` construction attempts); in particular it is never a
`FusionExecutionError`. -/
theorem execute_code_in_transaction_error_cls (host : HostBehavior)
    (code tname : PyValue) (e : PyException)
    (h : execute_code_in_transaction host code tname = some (.error e)) :
    e.cls = ExcClass.invalidUserInput ∨ e.cls = ExcClass.typeErr := by
  rcases host with ⟨a, su, o, d⟩
  cases hc : pyTruthy code <;> cases a <;> cases su <;> cases o <;> cases d <;>
    simp [execute_code_in_transaction, runCommandCallbacks, commandCreatedNotify,
          commandExecuteNotify, commandDestroyNotify, fusionExecutionErrorNew, hc] at h <;>
    (try subst h) <;> decide

/-- The kwargs wrapper adds only `TypeError` outcomes of its own. -/
theorem execute_code_action_error_cls (host : HostBehavior) (params : PyParams)
    (e : PyException) (h : execute_code_action host params = some (.error e)) :
    e.cls = ExcClass.invalidUserInput ∨ e.cls = ExcClass.typeErr := by
  unfold execute_code_action at h
  cases hall : (params.all fun kv => kv.1 == "code" || kv.1 == "transaction_name") <;>
    rw [hall] at h
  · simp at h
    subst h
    right; rfl
  · simp only [Bool.not_true, Bool.false_eq_true, if_false] at h
    cases hlp : lookupParam params "code" <;> rw [hlp] at h
    · simp at h
      subst h
      right; rfl
    · rename_i code
      simp at h
      obtain ⟨a, ha, hmap⟩ := h
      cases a with
      | ok v => simp [Except.map] at hmap
      | error e2 =>
          simp [Except.map] at hmap
          subst hmap
          exact execute_code_in_transaction_error_cls host code _ _ ha

/-- Every error the dispatcher can raise over the actual registry is an
`InvalidUserInputError` or a `TypeError` - never a `FusionExecutionError`,
since that constructor can never complete. -/
theorem server_dispatch_error_cls (host : HostBehavior) (name : String)
    (params : PyParams) (e : PyException)
    (h : _execute_handler (serverActions host) name params = some (.error e)) :
    e.cls = ExcClass.invalidUserInput ∨ e.cls = ExcClass.typeErr := by
  by_cases hn : "execute_code" = name
  · cases hr : execute_code_action host params with
    | none => simp [_execute_handler, serverActions, lookupAction, hn, hr] at h
    | some res =>
      cases res with
      | ok v => simp [_execute_handler, serverActions, lookupAction, hn, hr] at h
      | error e2 =>
          rcases execute_code_action_error_cls host params e2 hr with h2 | h2
          · have hfs : e2.cls.isFusionServerError = true := by
              rw [h2]; rfl
            simp [_execute_handler, serverActions, lookupAction, hn, hr, hfs] at h
            subst h
            exact Or.inl h2
          · have hfs : e2.cls.isFusionServerError = false := by
              rw [h2]; rfl
            simp [_execute_handler, serverActions, lookupAction, hn, hr, hfs,
                  fusionExecutionErrorNew] at h
            subst h
            right; rfl
  · simp [_execute_handler, serverActions, lookupAction, hn] at h
    subst h
    left; rfl

/-- C7 counterexample: a malformed-JSON request makes the server emit
`error.type = "BadRequest"`, a string outside the claimed closed taxonomy. -/
theorem c7_taxonomy_counterexample :
    do_POST quietHost "/execute_code" (.malformed "x")
      = some { status_code := 400,
               body := errorEnvelope "BadRequest" "Invalid JSON format: x" }
    ∧ envelopeErrorType (errorEnvelope "BadRequest" "Invalid JSON format: x")
      = some (.str "BadRequest")
    ∧ "BadRequest" ∉ claimedTaxonomy :=
  ⟨rfl, rfl, by decide⟩

/-- C7 amended: every error response the HTTP server produces carries an
`error.type` inside the claimed taxonomy extended with `"BadRequest"` (in
fact only `"BadRequest"` and `"InternalServerError"` are reachable, since
no `FusionExecutionError` instance can ever be constructed). -/
theorem c7_amended_taxonomy (host : HostBehavior) (path : String)
    (body : RequestBody) (r : HttpResponse)
    (hr : do_POST host path body = some r) :
    r.status_code = 200
    ∨ ∃ t, envelopeErrorType r.body = some (.str t)
        ∧ t ∈ claimedTaxonomy ++ ["BadRequest"] := by
  cases body with
  | malformed msg =>
      simp [do_POST, do_POST_try] at hr
      subst hr
      right
      exact ⟨"BadRequest", rfl, by decide⟩
  | nonObject =>
      simp [do_POST, do_POST_try] at hr
      subst hr
      right
      exact ⟨"InternalServerError", rfl, by decide⟩
  | empty =>
      simp only [do_POST, do_POST_try] at hr
      cases hd : _execute_handler (serverActions host) (stripChar '/' path) [] <;>
        rw [hd] at hr
      · simp at hr
      · rename_i res
        cases res with
        | ok v =>
            simp at hr
            subst hr
            left; rfl
        | error e =>
            simp at hr
            subst hr
            right
            rcases server_dispatch_error_cls host _ _ e hd with h2 | h2 <;>
              · refine ⟨"InternalServerError", ?_, by decide⟩
                simp [do_POST_except, h2, envelopeErrorType, errorEnvelope, dictLookup]
  | obj params =>
      simp only [do_POST, do_POST_try] at hr
      cases hd : _execute_handler (serverActions host) (stripChar '/' path) params <;>
        rw [hd] at hr
      · simp at hr
      · rename_i res
        cases res with
        | ok v =>
            simp at hr
            subst hr
            left; rfl
        | error e =>
            simp at hr
            subst hr
            right
            rcases server_dispatch_error_cls host _ _ e hd with h2 | h2 <;>
              · refine ⟨"InternalServerError", ?_, by decide⟩
                simp [do_POST_except, h2, envelopeErrorType, errorEnvelope, dictLookup]

/-- C7 amended witness: the amended taxonomy theorem applied to the concrete
request `POST /y` with empty body. -/
theorem c7_amended_witness :
    do_POST quietHost "/y" .empty = some unknownActionYResponse
    ∧ (unknownActionYResponse.status_code = 200
       ∨ ∃ t, envelopeErrorType unknownActionYResponse.body = some (.str t)
           ∧ t ∈ claimedTaxonomy ++ ["BadRequest"]) :=
  ⟨rfl, c7_amended_taxonomy quietHost "/y" .empty unknownActionYResponse rfl⟩

/-- An envelope built by `_create_error_response` always carries the string
key `"success"`. -/
theorem create_error_response_hasKey (t m : PyValue) :
    hasStrKey (FusionClientPy._create_error_response t m) "success" = true := rfl

/-- A value `_handle_ok_response` returns is either the response body passed
through - which then provably holds a `"success"` key - or an envelope built
by `_create_error_response`. -/
theorem handle_ok_response_shape (d v : PyValue)
    (h : FusionClientPy._handle_ok_response d = .ok v) :
    (v = d ∧ hasStrKey d "success" = true)
    ∨ ∃ t m, v = FusionClientPy._create_error_response t m := by
  unfold FusionClientPy._handle_ok_response at h
  cases h1 : pyDictGet d "success" (.bool false) <;> rw [h1] at h <;>
    simp only [] at h
  · exact absurd h (by simp)
  · rename_i is_success
    by_cases hs : pyTruthy is_success = true
    · rw [if_pos hs] at h
      left
      refine ⟨(Except.ok.inj h).symm, ?_⟩
      cases d with
      | dict entries =>
          simp only [pyDictGet, Except.ok.injEq] at h1
          subst h1
          cases hlk : dictLookup entries (.str "success") with
          | none => rw [hlk] at hs; simp [pyTruthy] at hs
          | some w => simp [hasStrKey, hlk]
      | pynone => simp [pyDictGet] at h1
      | bool b => simp [pyDictGet] at h1
      | str s => simp [pyDictGet] at h1
      | int n => simp [pyDictGet] at h1
      | list elems => simp [pyDictGet] at h1
    · rw [if_neg hs] at h
      cases h2 : pyDictGet d "error" (.dict []) <;> rw [h2] at h <;>
        simp only [] at h
      · exact absurd h (by simp)
      · rename_i error_info
        cases h3 : pyDictGet error_info "type" (.str "FusionServerError") <;>
            rw [h3] at h <;> simp only [] at h
        · exact absurd h (by simp)
        · rename_i t
          cases h4 : pyDictGet error_info "message" (.str "An unknown error occurred") <;>
              rw [h4] at h <;> simp only [] at h
          · exact absurd h (by simp)
          · rename_i m
            right
            exact ⟨t, m, (Except.ok.inj h).symm⟩

/-- A value `_handle_error_response` returns is always an envelope built by
`_create_error_response`. -/
theorem handle_error_response_shape (d : PyValue) (st : Nat) (v : PyValue)
    (h : FusionClientPy._handle_error_response d st = .ok v) :
    ∃ t m, v = FusionClientPy._create_error_response t m := by
  unfold FusionClientPy._handle_error_response at h
  cases h2 : pyDictGet d "error" (.dict []) <;> rw [h2] at h <;>
    simp only [] at h
  · exact absurd h (by simp)
  · rename_i error_info
    cases h3 : pyDictGet error_info "type" (.str "ServerError") <;>
        rw [h3] at h <;> simp only [] at h
    · exact absurd h (by simp)
    · rename_i t
      cases h4 : pyDictGet error_info "message"
          (.str ("Server returned status " ++ toString st)) <;>
          rw [h4] at h <;> simp only [] at h
      · exact absurd h (by simp)
      · rename_i m
        exact ⟨t, m, (Except.ok.inj h).symm⟩

/-- Every value the async client's `call_action` returns is either the 2xx
response body passed through (then holding a `"success"` key) or an envelope
built by `_create_error_response`. -/
theorem call_action_shape (name : String) (outcome : FusionClientPy.Outcome) :
    (∃ st dd, outcome = .response st (.ok dd)
        ∧ FusionClientPy.call_action name outcome = dd
        ∧ hasStrKey dd "success" = true)
    ∨ ∃ t m, FusionClientPy.call_action name outcome
        = FusionClientPy._create_error_response t m := by
  cases outcome with
  | response st body =>
    cases body with
    | error msg => right; exact ⟨_, _, rfl⟩
    | ok dd =>
      by_cases hst : 200 ≤ st ∧ st < 300
      · cases hh : FusionClientPy._handle_ok_response dd with
        | error e =>
            right
            refine ⟨.str "UnknownError",
              .str (FusionClientPy.UNKNOWN_ERROR_message ++ " Details: " ++ e.message), ?_⟩
            simp [FusionClientPy.call_action, hst, hh]
        | ok v =>
            rcases handle_ok_response_shape dd v hh with ⟨hv, hk⟩ | ⟨t, m, hv⟩
            · left
              refine ⟨st, dd, rfl, ?_, hk⟩
              simp [FusionClientPy.call_action, hst, hh, hv]
            · right
              refine ⟨t, m, ?_⟩
              simp [FusionClientPy.call_action, hst, hh, hv]
      · cases hh : FusionClientPy._handle_error_response dd st with
        | error e =>
            right
            refine ⟨.str "UnknownError",
              .str (FusionClientPy.UNKNOWN_ERROR_message ++ " Details: " ++ e.message), ?_⟩
            simp [FusionClientPy.call_action, hst, hh]
        | ok v =>
            rcases handle_error_response_shape dd st v hh with ⟨t, m, hv⟩
            right
            refine ⟨t, m, ?_⟩
            simp [FusionClientPy.call_action, hst, hh, hv]
  | connectError m => right; exact ⟨_, _, rfl⟩
  | timeoutException m => right; exact ⟨_, _, rfl⟩
  | requestError m => right; exact ⟨_, _, rfl⟩
  | unexpected m => right; exact ⟨_, _, rfl⟩

/-- C10: the async client's `call_action` is total at its interface - over
every action name and transport outcome it returns a dict with the key
`"success"` and raises nothing; every result is the 2xx pass-through body or
a `_create_error_response` envelope `{"success": False, "error": {"type",
"message"}}`; and the self-constructed transport failures carry the string
type and message the source fixes. -/
theorem c10_httpx_call_action_total :
    (∀ (name : String) (outcome : FusionClientPy.Outcome),
        hasStrKey (FusionClientPy.call_action name outcome) "success" = true)
    ∧ (∀ (name : String) (outcome : FusionClientPy.Outcome),
        (∃ st dd, outcome = .response st (.ok dd)
            ∧ FusionClientPy.call_action name outcome = dd)
        ∨ ∃ t m, FusionClientPy.call_action name outcome
            = FusionClientPy._create_error_response t m)
    ∧ (∀ (name m : String),
        FusionClientPy.call_action name (.connectError m)
          = FusionClientPy._create_error_response (.str "FusionServerConnectionError")
              (.str FusionClientPy.ADDIN_CONNECTION_ERROR_message)
        ∧ FusionClientPy.call_action name (.timeoutException m)
          = FusionClientPy._create_error_response (.str "FusionServerTimeoutError")
              (.str FusionClientPy.ADDIN_TIMEOUT_ERROR_message)
        ∧ FusionClientPy.call_action name (.requestError m)
          = FusionClientPy._create_error_response (.str "FusionServerRequestError")
              (.str ("Network error while communicating with Fusion Add-in: " ++ m ++ ". Please ask the user to check their network connection and ensure Fusion is accessible."))
        ∧ FusionClientPy.call_action name (.unexpected m)
          = FusionClientPy._create_error_response (.str "UnknownError")
              (.str (FusionClientPy.UNKNOWN_ERROR_message ++ " Details: " ++ m))) := by
  refine ⟨?_, ?_, ?_⟩
  · intro name outcome
    rcases call_action_shape name outcome with ⟨st, dd, -, he, hk⟩ | ⟨t, m, he⟩
    · rw [he]; exact hk
    · rw [he]; exact create_error_response_hasKey t m
  · intro name outcome
    rcases call_action_shape name outcome with ⟨st, dd, ho, he, -⟩ | ⟨t, m, he⟩
    · exact Or.inl ⟨st, dd, ho, he⟩
    · exact Or.inr ⟨t, m, he⟩
  · intro name m
    exact ⟨rfl, rfl, rfl, rfl⟩
